import Mathlib

/-
Verification development for the PyMC4 "hiding yield" prototype notebooks
(src/python/ast-hiding-yield/00-prototype and 01-iteration, hiding-yield.ipynb).

The notebooks implement a small source-to-source compiler plus a generator
driver:
  - uncompile / parse_snippet / recompile : source extraction, parsing of
    possibly indented snippets, and recompilation of a (rewritten) tree;
  - FunctionToGenerator (visit_Assign, visit_FunctionDef) : the rewrite pass
    that wraps distribution-constructing assignments in yield markers and
    model-delegating assignments in yield-from markers;
  - interact : the driver that repeatedly resumes the generator, resolving
    each yielded distribution descriptor to a value.

The development below shallowly embeds those functions: Python AST nodes
become inductive types, the ambient globals()/getattr resolution becomes an
explicit finite environment, generators become an inductive interaction tree,
and Python exceptions become explicit error values.
-/

/-! ## Embedded Python AST (the fragment the notebooks manipulate) -/

/-- Expressions: the AST constructors that FunctionToGenerator inspects or
builds (ast.Name, ast.Attribute, ast.Call, ast.Yield, ast.YieldFrom) plus a
literal constructor standing for any other expression (numbers, tensors). -/
inductive Expr where
  | name (id : String)
  | attribute (value : Expr) (attr : String)
  | call (func : Expr) (args : List Expr)
  | yield (value : Expr)
  | yieldFrom (value : Expr)
  | const (n : Int)

/-- Statements of a function body. visit_Assign only rewrites plain
assignment statements; return and bare expression statements pass through. -/
inductive Stmt where
  | assign (target : String) (value : Expr)
  | ret (value : Option Expr)
  | exprStmt (value : Expr)

/-- A function declaration: name, parameters, decorator list, body
(ast.FunctionDef with the fields the notebooks touch). -/
structure FunctionDef where
  name : String
  params : List String
  decorators : List String
  body : List Stmt

/-- A top-level element of a parsed module: either a function declaration or
some other statement. -/
inductive Item where
  | fdef (f : FunctionDef)
  | stmt (s : Stmt)

/-- A parsed module (ast.Module): its ordered top-level body. -/
structure PyModule where
  body : List Item

/-! ## Classification environment

In the notebooks, visit_Assign resolves the called identifier through the
ambient globals() namespace (and a getattr chain for dotted paths), then
classifies the resolved value by isinstance checks.  The embedding makes that
resolution an explicit finite environment from (base name, attribute path)
keys to the three runtime classifications the code distinguishes. -/

/-- Runtime classification of a resolved callee, mirroring the isinstance
checks in visit_Assign:
  - distClass: an instance of tfd.distribution._DistributionMeta, i.e. a
    distribution class such as tfd.Normal (suspension eligible);
  - modelHandle: an instance of the Model decorator class (delegation);
  - plainValue: anything else in scope, e.g. tf.zeros (left alone). -/
inductive GValue where
  | distClass
  | modelHandle
  | plainValue
deriving Repr, DecidableEq

/-- The ambient namespace: finite map from (base identifier, attribute path)
to the value that globals()[base] followed by the getattr chain yields. -/
abbrev Env := List ((String × List String) × GValue)

/-- Resolution of a dotted path in the environment; a missing key models the
KeyError of globals()[...] or the AttributeError of the getattr chain. -/
def lookupEnv : Env → String → List String → Option GValue
  | [], _, _ => none
  | (key, gv) :: rest, base, attrs =>
    if key.1 = base ∧ key.2 = attrs then some gv else lookupEnv rest base attrs

/-- The while loop of visit_Assign that unrolls nested ast.Attribute nodes,
collecting attribute names innermost-last and stopping at the base ast.Name.
Returns none when the innermost value is not a Name, in which case the Python
code would raise AttributeError reading function.id. -/
def collectAttrs : Expr → List String → Option (String × List String)
  | Expr.attribute v a, acc => collectAttrs v (a :: acc)
  | Expr.name id, acc => some (id, acc)
  | _, _ => none

/-! ## The rewrite pass (FunctionToGenerator, 01-iteration variant) -/

/-- Errors the rewrite pass can raise:
  - lookupFailed: KeyError from globals()[...] or AttributeError from the
    getattr chain (the called identifier does not resolve);
  - unexpectedCalleeKind: the explicit RuntimeError raised when the callee is
    neither an ast.Name nor an ast.Attribute;
  - delegateAttributeCallee: the AttributeError raised in the yield-from
    branch when reading .id of a callee that is not an ast.Name. -/
inductive RewriteError where
  | lookupFailed
  | unexpectedCalleeKind
  | delegateAttributeCallee
deriving Repr, DecidableEq

/-- visit_Assign of FunctionToGenerator (01-iteration).  A non-call right
hand side (including an already present yield or yield-from form) is returned
unchanged.  For a call, the callee is resolved: a distribution class gets a
yield wrapper, a Model instance gets a yield-from wrapper with the callee
redirected to its model_generator attribute, anything else is skipped. -/
def visit_Assign (env : Env) (t : String) (v : Expr) : Except RewriteError Stmt :=
  match v with
  | Expr.call f args =>
    match f with
    | Expr.name id =>
      match lookupEnv env id [] with
      | none => Except.error RewriteError.lookupFailed
      | some GValue.distClass =>
        Except.ok (Stmt.assign t (Expr.yield (Expr.call (Expr.name id) args)))
      | some GValue.modelHandle =>
        Except.ok (Stmt.assign t (Expr.yieldFrom
          (Expr.call (Expr.attribute (Expr.name id) "model_generator") args)))
      | some GValue.plainValue => Except.ok (Stmt.assign t (Expr.call (Expr.name id) args))
    | Expr.attribute b a =>
      match collectAttrs (Expr.attribute b a) [] with
      | none => Except.error RewriteError.lookupFailed
      | some (base, attrs) =>
        match lookupEnv env base attrs with
        | none => Except.error RewriteError.lookupFailed
        | some GValue.distClass =>
          Except.ok (Stmt.assign t (Expr.yield (Expr.call (Expr.attribute b a) args)))
        | some GValue.modelHandle => Except.error RewriteError.delegateAttributeCallee
        | some GValue.plainValue =>
          Except.ok (Stmt.assign t (Expr.call (Expr.attribute b a) args))
    | _ => Except.error RewriteError.unexpectedCalleeKind
  | _ => Except.ok (Stmt.assign t v)

/-- One statement of a body under the NodeTransformer: only assignment
statements are rewrite targets. -/
def rewriteStmt (env : Env) : Stmt → Except RewriteError Stmt
  | Stmt.assign t v => visit_Assign env t v
  | s => Except.ok s

/-- The transformer applied in order to every statement of a body; the first
raised error aborts the pass, as an uncaught Python exception would. -/
def rewriteBody (env : Env) : List Stmt → Except RewriteError (List Stmt)
  | [] => Except.ok []
  | s :: rest =>
    match rewriteStmt env s, rewriteBody env rest with
    | Except.ok s2, Except.ok rest2 => Except.ok (s2 :: rest2)
    | Except.error e, _ => Except.error e
    | Except.ok _, Except.error e => Except.error e

/-- visit_FunctionDef: rename the declaration to the fixed internal name
_model_generator, strip the decorator list, and visit the body. -/
def visit_FunctionDef (env : Env) (f : FunctionDef) : Except RewriteError FunctionDef :=
  match rewriteBody env f.body with
  | Except.ok body2 => Except.ok ⟨"_model_generator", f.params, [], body2⟩
  | Except.error e => Except.error e

/-- An expression is a suspension or delegation form when its head is a
yield or yield-from marker. -/
def isSuspensionForm : Expr → Bool
  | Expr.yield _ => true
  | Expr.yieldFrom _ => true
  | _ => false

/-- An expression is a call expression (ast.Call) at its head. -/
def isCallExpr : Expr → Bool
  | Expr.call _ _ => true
  | _ => false

mutual

/-- Number of suspension or delegation markers contained in an expression. -/
def markerCount : Expr → Nat
  | Expr.yield e => 1 + markerCount e
  | Expr.yieldFrom e => 1 + markerCount e
  | Expr.call f args => markerCount f + markerCountList args
  | Expr.attribute v _ => markerCount v
  | Expr.name _ => 0
  | Expr.const _ => 0

/-- Total marker count of a list of expressions. -/
def markerCountList : List Expr → Nat
  | [] => 0
  | e :: rest => markerCount e + markerCountList rest

end

/-- Boolean form of "this statement is not an assignment, or its right hand
side is already a suspension/delegation form"; the hypothesis of the
idempotence property. -/
def assignRhsSuspended : Stmt → Bool
  | Stmt.assign _ v => isSuspensionForm v
  | _ => true

/-! ## Source extraction (uncompile) -/

/-- The fields of a Python code object that uncompile reads.  sourceLines
models inspect.getsourcelines: some (text, first line number), or none when
the call raises IOError. -/
structure CodeObj where
  co_nested : Bool
  co_freevars : List String
  co_name : String
  co_filename : String
  co_flags_future : Nat
  co_names : List String
  sourceLines : Option (String × Nat)
deriving Repr, DecidableEq

/-- The list uncompile returns: [source, filename, mode, flags, firstlineno,
privateprefix]. -/
structure FunctionSource where
  source : String
  filename : String
  mode : String
  flags : Nat
  firstlineno : Nat
  privpfx : Option String
deriving Repr, DecidableEq

/-- The failures uncompile can raise.  The first three are the
NotImplementedError cases (the messages all end in "not supported"); the last
is the RuntimeError "Source code not available" raised on IOError. -/
inductive UncompileError where
  | notImplementedNested
  | notImplementedLambda
  | notImplementedNoSourceFile
  | runtimeSourceNotAvailable
deriving Repr, DecidableEq

/-- A character allowed inside the bracketed class of the private-prefix
pattern: letters, digits, underscore. -/
def wordChar (c : Char) : Bool := c.isAlpha || c.isDigit || c = '_'

/-- True when the character list starts with two underscores. -/
def doubleUnderscoreAt : List Char → Bool
  | '_' :: '_' :: _ => true
  | _ => false

/-- Greedy split point for the private-prefix pattern: the largest j such
that the first j characters are word characters and a double underscore
follows, mirroring the backtracking of the greedy star. -/
def greedyIdx (rest : List Char) : Option Nat :=
  (List.range (rest.length + 1)).reverse.find? (fun j =>
    (rest.take j).all wordChar && doubleUnderscoreAt (rest.drop j))

/-- Captured group of re.match on one name against the mangled-name pattern
(an underscore, a letter, word characters, then a double underscore). -/
def privCapture (s : String) : Option String :=
  match s.data with
  | '_' :: c :: rest =>
    if c.isAlpha then
      (greedyIdx rest).map (fun j => String.mk ('_' :: c :: rest.take j))
    else none
  | _ => none

/-- The loop over co_names that records the first private prefix found. -/
def findPrivPfx (names : List String) : Option String :=
  names.findSome? privCapture

/-- uncompile(codeobj): reject nested functions and closures, lambdas, and
code compiled from a string; then read the source lines, raising the
RuntimeError when they are unavailable; otherwise return the six-element
FunctionSource. -/
def uncompile (c : CodeObj) : Except UncompileError FunctionSource :=
  if c.co_nested = true ∨ c.co_freevars ≠ [] then
    Except.error UncompileError.notImplementedNested
  else if c.co_name = "<lambda>" then
    Except.error UncompileError.notImplementedLambda
  else if c.co_filename = "<string>" then
    Except.error UncompileError.notImplementedNoSourceFile
  else
    match c.sourceLines with
    | none => Except.error UncompileError.runtimeSourceNotAvailable
    | some (src, fl) =>
      Except.ok ⟨src, c.co_filename, "exec", c.co_flags_future, fl, findPrivPfx c.co_names⟩

/-- The classification of an uncompile failure under the taxonomy of the
specification: the NotImplementedError cases are NotSupported. -/
def specNotSupported : UncompileError → Bool
  | UncompileError.runtimeSourceNotAvailable => false
  | _ => true

/-- The classification of an uncompile failure as NotAvailable: only the
RuntimeError raised when the source lines cannot be read. -/
def specNotAvailable : UncompileError → Bool
  | UncompileError.runtimeSourceNotAvailable => true
  | _ => false

/-! ## parse_snippet and recompile -/

/-- A source fragment fed to parse_snippet.  The embedding keeps the parsed
items and whether the fragment was indented: an unindented fragment compiles
directly after a newline pad; an indented one raises IndentationError, is
wrapped in the dummy compound statement "with 0:", and the wrapper is peeled
off again (a.body = a.body[0].body), recovering the same items.  The
increment_lineno call only shifts line bookkeeping and is not modelled. -/
structure Snippet where
  indented : Bool
  items : List Item

/-- parse_snippet returns the parsed module; by the wrap-and-peel mechanism
the module body is the fragment, whether or not it was indented. -/
def parse_snippet (s : Snippet) : PyModule := ⟨s.items⟩

/-- The executable unit produced by the final compile call of recompile. -/
structure CompiledArtifact where
  modTree : PyModule

/-- The two recompile inputs: a preparsed tree (the materialize path) or
source text handed to parse_snippet first (the parse path). -/
inductive RecompileInput where
  | tree (m : PyModule)
  | text (s : Snippet)

/-- The tree recompile checks: the input tree itself, or the tree
parse_snippet produced from the text. -/
def sourceModule : RecompileInput → PyModule
  | RecompileInput.tree m => m
  | RecompileInput.text s => parse_snippet s

/-- Failures of recompile: the RuntimeError "Expecting function AST node"
(the MalformedInput of the specification), and the IndexError a.body[0]
raises on an empty module. -/
inductive RecompileError where
  | malformedInput
  | indexError
deriving Repr, DecidableEq

/-- The body[0] check of recompile followed by the final compile call. -/
def recompileCheck (m : PyModule) : Except RecompileError CompiledArtifact :=
  match m.body with
  | [] => Except.error RecompileError.indexError
  | Item.fdef _ :: _ => Except.ok ⟨m⟩
  | Item.stmt _ :: _ => Except.error RecompileError.malformedInput

/-- recompile: parse the source when it is not already a tree, then require
the first top-level element to be a function declaration. -/
def recompile (inp : RecompileInput) : Except RecompileError CompiledArtifact :=
  recompileCheck (sourceModule inp)

/-! ## The driver (interact)

The rewritten function is a Python generator.  The embedding models a
started generator as an interaction tree: it is either finished, carrying
the StopIteration payload (some value for `return e`, none for a bare
return or falling off the end), or it yields a distribution descriptor and
continues as a function of the value sent back in.  The stochastic draw
dist.sample() is modelled as an explicit function from descriptors to
values, fixed for the run. -/

/-- Values exchanged with the generator (tensors in the notebooks). -/
abbrev Value := Int

/-- The descriptor a suspension point hands outward: the constructed
distribution object, carrying its stable name.  The payload field stands for
the rest of the object identity (its parameters). -/
structure Descriptor where
  name : String
  payload : Int
deriving Repr, DecidableEq

/-- A started suspendable computation. -/
inductive Gen where
  | done (result : Option Value)
  | yieldD (d : Descriptor) (k : Value → Gen)

/-- The meaning of the delegating marker `x = yield from g`: every yield of
the nested computation g passes through unchanged, and when g finishes, its
StopIteration payload is handed to the rest of the parent computation. -/
def Gen.bind : Gen → (Option Value → Gen) → Gen
  | Gen.done r, k => k r
  | Gen.yieldD d c, k => Gen.yieldD d (fun v => Gen.bind (c v) k)

/-- The run-scoped state dictionary of interact: the insertion-ordered
"dists" mapping (seen descriptors by name) and the "samples" mapping
(resolved values by name; observations are supplied here before the run). -/
structure RunState where
  dists : List (String × Descriptor)
  samples : List (String × Value)
deriving Repr, DecidableEq

/-- Lookup in an insertion-ordered string-keyed mapping. -/
def lookupName {α : Type} : List (String × α) → String → Option α
  | [], _ => none
  | (k, v) :: rest, n => if k = n then some v else lookupName rest n

/-- How a run ends: normal completion with the StopIteration payload, or the
abort of the duplicate-name branch.  That branch intends to throw a
RuntimeError listing the colliding name and the already-seen names, but the
Python code dereferences the undefined variable preds_dist while formatting
the message, so what actually escapes is a bare NameError carrying neither;
failedNameError records that abort. -/
inductive Outcome where
  | completed (result : Option Value)
  | failedNameError
deriving Repr, DecidableEq

/-- The driver loop of interact.  On each yielded descriptor: abort if its
name was already seen; otherwise resolve the value from the samples mapping
(an observation) or by drawing, record descriptor and value by name, and
resume with the resolved value.  On completion return the payload and the
state.  The state is returned on the abort path too, because the Python
caller passed the dictionaries in and they are mutated in place. -/
def interactGo (sample : Descriptor → Value) : Gen → RunState → Outcome × RunState
  | Gen.done r, st => (Outcome.completed r, st)
  | Gen.yieldD d k, st =>
    if (lookupName st.dists d.name).isSome then
      (Outcome.failedNameError, st)
    else
      match lookupName st.samples d.name with
      | some v =>
        interactGo sample (k v) ⟨st.dists ++ [(d.name, d)], st.samples⟩
      | none =>
        interactGo sample (k (sample d))
          ⟨st.dists ++ [(d.name, d)], st.samples ++ [(d.name, sample d)]⟩

/-- interact(gen, state): instantiate the generator and drive it. -/
def interact (sample : Descriptor → Value) (g : Gen) (st : RunState) :
    Outcome × RunState :=
  interactGo sample g st

/-- The sequence of descriptors a computation yields when every suspension
is answered by the response function. -/
def traceOf (resp : Descriptor → Value) : Gen → List Descriptor
  | Gen.done _ => []
  | Gen.yieldD d k => d :: traceOf resp (k (resp d))

/-- The completion payload of a computation when every suspension is
answered by the response function. -/
def resultOf (resp : Descriptor → Value) : Gen → Option Value
  | Gen.done r => r
  | Gen.yieldD d k => resultOf resp (k (resp d))

/-- A computation has exactly n suspension points when every resumption path
passes through n yields; the straight-line bodies the rewrite produces have
this shape. -/
inductive YieldsExactly : Gen → Nat → Prop
  | done (r : Option Value) : YieldsExactly (Gen.done r) 0
  | step (d : Descriptor) (k : Value → Gen) (n : Nat)
      (h : ∀ v, YieldsExactly (k v) n) : YieldsExactly (Gen.yieldD d k) (n + 1)

/-! ## Driver lemmas -/

/-- Lookup distributes over append when the key is absent from the front. -/
lemma lookupName_append_none {α : Type} {l1 : List (String × α)}
    (l2 : List (String × α)) (n : String) (h : lookupName l1 n = none) :
    lookupName (l1 ++ l2) n = lookupName l2 n := by
  induction l1 with
  | nil => rfl
  | cons p rest ih =>
    obtain ⟨k, v⟩ := p
    by_cases hk : k = n
    · simp [lookupName, hk] at h
    · simp only [lookupName, List.cons_append, if_neg hk] at h ⊢
      exact ih h

/-- Delegation splices the nested trace in place: the trace of a delegated
computation is the nested trace followed by the trace of the continuation at
the nested completion value. -/
lemma traceOf_bind (resp : Descriptor → Value) (k : Option Value → Gen) :
    ∀ g : Gen, traceOf resp (Gen.bind g k)
      = traceOf resp g ++ traceOf resp (k (resultOf resp g)) := by
  intro g
  induction g with
  | done r => rfl
  | yieldD d c ih => simp [Gen.bind, traceOf, resultOf, ih]

/-- A computation with exactly n suspension points has a trace of length n
under every response function. -/
lemma yieldsExactly_traceLen (resp : Descriptor → Value) :
    ∀ {g : Gen} {n : Nat}, YieldsExactly g n → (traceOf resp g).length = n := by
  intro g n h
  induction h with
  | done r => rfl
  | step d c n hc ih => simp [traceOf, ih]

/-- Delegating into a computation with b suspension points from one with a
suspension points gives a + b suspension points. -/
lemma yieldsExactly_bind {g : Gen} {a : Nat} {k : Option Value → Gen} {b : Nat}
    (hg : YieldsExactly g a) (hk : ∀ r, YieldsExactly (k r) b) :
    YieldsExactly (Gen.bind g k) (a + b) := by
  induction hg with
  | done r => simpa [Gen.bind] using hk r
  | step d c n hc ih =>
    have heq : n + 1 + b = n + b + 1 := by omega
    rw [heq]
    simp only [Gen.bind]
    exact YieldsExactly.step _ _ _ (fun v => ih v)

/-- When the names of the trace are pairwise distinct and absent from the
initial state, the driver completes the run, recording exactly the yielded
descriptors in order in dists and the drawn values in order in samples. -/
lemma interact_trace (sample : Descriptor → Value) (g : Gen) :
    ∀ st : RunState,
      (∀ d ∈ traceOf sample g, lookupName st.dists d.name = none) →
      (∀ d ∈ traceOf sample g, lookupName st.samples d.name = none) →
      ((traceOf sample g).map Descriptor.name).Nodup →
      interactGo sample g st
        = (Outcome.completed (resultOf sample g),
           ⟨st.dists ++ (traceOf sample g).map (fun d => (d.name, d)),
            st.samples ++ (traceOf sample g).map (fun d => (d.name, sample d))⟩) := by
  induction g with
  | done r =>
    intro st h1 h2 h3
    simp [interactGo, traceOf, resultOf]
  | yieldD d k ih =>
    intro st h1 h2 h3
    have hd : lookupName st.dists d.name = none := h1 d (by simp [traceOf])
    have hs : lookupName st.samples d.name = none := h2 d (by simp [traceOf])
    simp only [traceOf, List.map_cons, List.nodup_cons] at h3
    obtain ⟨hdn, hnd⟩ := h3
    have hne : ∀ d2 ∈ traceOf sample (k (sample d)), d2.name ≠ d.name := by
      intro d2 hmem heq
      exact hdn (heq ▸ List.mem_map_of_mem Descriptor.name hmem)
    have hstep : interactGo sample (Gen.yieldD d k) st
        = interactGo sample (k (sample d))
            ⟨st.dists ++ [(d.name, d)], st.samples ++ [(d.name, sample d)]⟩ := by
      simp [interactGo, hd, hs]
    have h1t : ∀ d2 ∈ traceOf sample (k (sample d)),
        lookupName (st.dists ++ [(d.name, d)]) d2.name = none := by
      intro d2 hmem
      rw [lookupName_append_none _ _ (h1 d2 (by simp [traceOf]; exact Or.inr hmem))]
      simp [lookupName, Ne.symm (hne d2 hmem)]
    have h2t : ∀ d2 ∈ traceOf sample (k (sample d)),
        lookupName (st.samples ++ [(d.name, sample d)]) d2.name = none := by
      intro d2 hmem
      rw [lookupName_append_none _ _ (h2 d2 (by simp [traceOf]; exact Or.inr hmem))]
      simp [lookupName, Ne.symm (hne d2 hmem)]
    rw [hstep, ih (sample d) _ h1t h2t hnd]
    simp [traceOf, resultOf, List.append_assoc]

/-! ## Claims about the driver -/

/-- A computation that yields the name "a" twice in a row. -/
def dupGen : Gen :=
  Gen.yieldD ⟨"a", 1⟩ (fun _ => Gen.yieldD ⟨"a", 2⟩ (fun _ => Gen.done (some 9)))

/-- C1: on a repeated descriptor name the run aborts immediately at the
second occurrence — no descriptor after the duplicate is resolved, and the
state visible to the caller holds only the first occurrence — but the abort
is a bare NameError (the duplicate branch dereferences the undefined
variable preds_dist while formatting its message), not the intended
DuplicateName error carrying the colliding name and the already-seen
names. -/
theorem c1_duplicate_name_aborts_with_nameerror :
    interact (fun _ => 7) dupGen ⟨[], []⟩
      = (Outcome.failedNameError, ⟨[("a", ⟨"a", 1⟩)], [("a", 7)]⟩) := rfl

/-- C7: on a yielded descriptor whose name is fresh, the driver resolves it
from the samples mapping when an observation for the name exists — using the
observed value verbatim, leaving the samples mapping untouched — and
otherwise by the stochastic draw, recording it in samples; in both cases the
descriptor is recorded in dists keyed by its name before the computation is
resumed with the resolved value. -/
theorem c7_observation_or_draw (sample : Descriptor → Value) (d : Descriptor)
    (k : Value → Gen) (st : RunState)
    (hfresh : lookupName st.dists d.name = none) :
    (∀ v, lookupName st.samples d.name = some v →
        interactGo sample (Gen.yieldD d k) st
          = interactGo sample (k v) ⟨st.dists ++ [(d.name, d)], st.samples⟩)
    ∧ (lookupName st.samples d.name = none →
        interactGo sample (Gen.yieldD d k) st
          = interactGo sample (k (sample d))
              ⟨st.dists ++ [(d.name, d)], st.samples ++ [(d.name, sample d)]⟩) := by
  constructor
  · intro v hv
    simp [interactGo, hfresh, hv]
  · intro hnone
    simp [interactGo, hfresh, hnone]

/-- The state of a run given the observation 42 for the name "x". -/
def obsState : RunState := ⟨[], [("x", 42)]⟩

/-- Witness for C7 at concrete inputs: the observed name "x" resumes with
the observation 42 and the samples mapping is unchanged; the unobserved name
"y" resumes with the drawn value 5 and both are recorded. -/
theorem c7_observation_or_draw_witness :
    interactGo (fun _ => 5) (Gen.yieldD ⟨"x", 0⟩ (fun v => Gen.done (some v))) obsState
      = interactGo (fun _ => 5) ((fun v => Gen.done (some v)) 42)
          ⟨obsState.dists ++ [("x", ⟨"x", 0⟩)], obsState.samples⟩
    ∧ interactGo (fun _ => 5) (Gen.yieldD ⟨"y", 0⟩ (fun v => Gen.done (some v))) obsState
      = interactGo (fun _ => 5) ((fun v => Gen.done (some v)) 5)
          ⟨obsState.dists ++ [("y", ⟨"y", 0⟩)], obsState.samples ++ [("y", 5)]⟩ := by
  constructor
  · exact (c7_observation_or_draw (fun _ => 5) ⟨"x", 0⟩
      (fun v => Gen.done (some v)) obsState rfl).1 42 rfl
  · exact (c7_observation_or_draw (fun _ => 5) ⟨"y", 0⟩
      (fun v => Gen.done (some v)) obsState rfl).2 rfl

/-- C10: a computation that completes without a terminal value (an empty
StopIteration) makes the driver return None as the result together with the
accumulated state, not a failure; spelled out both at the completion step
for any accumulated state and for a whole run that yields once and then
finishes bare. -/
theorem c10_completion_without_value_returns_none :
    (∀ (sample : Descriptor → Value) (st : RunState),
        interactGo sample (Gen.done none) st = (Outcome.completed none, st))
    ∧ (∀ (sample : Descriptor → Value) (d : Descriptor),
        interact sample (Gen.yieldD d (fun _ => Gen.done none)) ⟨[], []⟩
          = (Outcome.completed none, ⟨[(d.name, d)], [(d.name, sample d)]⟩)) := by
  constructor
  · intro sample st
    rfl
  · intro sample d
    rfl

/-- C2: delegating a nested computation with k suspension points into a
parent whose local prefix has m1 points and local suffix has m2 points (m =
m1 + m2 local points in all), where the delegation marker has the yield-from
semantics Gen.bind, gives a run trace that is the parent prefix trace, the
nested trace spliced in place at the delegation site, then the suffix trace,
with exactly k + m descriptor events; and the driver, which sees only the
flattened stream, records exactly those events in order in one uniform
loop. -/
theorem c2_delegation_flattening (sample : Descriptor → Value)
    (pre nested : Gen) (post : Option Value → Gen) (m1 k m2 : Nat)
    (hpre : YieldsExactly pre m1) (hnested : YieldsExactly nested k)
    (hpost : ∀ r, YieldsExactly (post r) m2)
    (hnodup : ((traceOf sample (Gen.bind pre (fun _ => Gen.bind nested post))).map
        Descriptor.name).Nodup) :
    traceOf sample (Gen.bind pre (fun _ => Gen.bind nested post))
      = traceOf sample pre
          ++ (traceOf sample nested
              ++ traceOf sample (post (resultOf sample nested)))
    ∧ (traceOf sample (Gen.bind pre (fun _ => Gen.bind nested post))).length
        = k + (m1 + m2)
    ∧ interactGo sample (Gen.bind pre (fun _ => Gen.bind nested post)) ⟨[], []⟩
        = (Outcome.completed
            (resultOf sample (Gen.bind pre (fun _ => Gen.bind nested post))),
           ⟨(traceOf sample (Gen.bind pre (fun _ => Gen.bind nested post))).map
              (fun d => (d.name, d)),
            (traceOf sample (Gen.bind pre (fun _ => Gen.bind nested post))).map
              (fun d => (d.name, sample d))⟩) := by
  have htr : traceOf sample (Gen.bind pre (fun _ => Gen.bind nested post))
      = traceOf sample pre
          ++ (traceOf sample nested
              ++ traceOf sample (post (resultOf sample nested))) := by
    rw [traceOf_bind, traceOf_bind]
  refine ⟨htr, ?_, ?_⟩
  · have hye : YieldsExactly (Gen.bind pre (fun _ => Gen.bind nested post))
        (m1 + (k + m2)) :=
      yieldsExactly_bind hpre (fun _ => yieldsExactly_bind hnested hpost)
    have := yieldsExactly_traceLen sample hye
    omega
  · have := interact_trace sample (Gen.bind pre (fun _ => Gen.bind nested post))
      ⟨[], []⟩ (fun d _ => rfl) (fun d _ => rfl) hnodup
    simpa using this

/-- A run-fixed stochastic draw used in the concrete C2 instance. -/
def sampleW : Descriptor → Value := fun d => d.payload

/-- Parent prefix with one local suspension point. -/
def preW : Gen := Gen.yieldD ⟨"a", 1⟩ (fun _ => Gen.done none)

/-- Nested computation with two suspension points. -/
def nestedW : Gen :=
  Gen.yieldD ⟨"b", 2⟩ (fun _ => Gen.yieldD ⟨"c", 3⟩ (fun v => Gen.done (some v)))

/-- Parent suffix with one local suspension point. -/
def postW : Option Value → Gen :=
  fun _ => Gen.yieldD ⟨"dd", 4⟩ (fun v => Gen.done (some v))

/-- Witness for C2: a parent with m = 2 local points delegating to a nested
computation with k = 2 points yields the four events in place and the driver
records them in order. -/
theorem c2_delegation_flattening_witness :
    traceOf sampleW (Gen.bind preW (fun _ => Gen.bind nestedW postW))
      = traceOf sampleW preW
          ++ (traceOf sampleW nestedW
              ++ traceOf sampleW (postW (resultOf sampleW nestedW)))
    ∧ (traceOf sampleW (Gen.bind preW (fun _ => Gen.bind nestedW postW))).length
        = 2 + (1 + 1)
    ∧ interactGo sampleW (Gen.bind preW (fun _ => Gen.bind nestedW postW)) ⟨[], []⟩
        = (Outcome.completed
            (resultOf sampleW (Gen.bind preW (fun _ => Gen.bind nestedW postW))),
           ⟨(traceOf sampleW (Gen.bind preW (fun _ => Gen.bind nestedW postW))).map
              (fun d => (d.name, d)),
            (traceOf sampleW (Gen.bind preW (fun _ => Gen.bind nestedW postW))).map
              (fun d => (d.name, sampleW d))⟩) :=
  c2_delegation_flattening sampleW preW nestedW postW 1 2 1
    (YieldsExactly.step _ _ _ (fun _ => YieldsExactly.done none))
    (YieldsExactly.step _ _ _
      (fun _ => YieldsExactly.step _ _ _ (fun v => YieldsExactly.done (some v))))
    (fun _ => YieldsExactly.step _ _ _ (fun v => YieldsExactly.done (some v)))
    (by decide)

/-! ## Claims about the rewrite pass -/

/-- C3 counterexample: an assignment calling an identifier that resolves
nowhere is not left unchanged — the rewrite fails with the KeyError of
globals()["mystery_fn"]. -/
theorem c3_unresolved_identifier_counterexample :
    visit_Assign [] "x" (Expr.call (Expr.name "mystery_fn") [])
      = Except.error RewriteError.lookupFailed
    ∧ visit_Assign [] "x" (Expr.call (Expr.name "mystery_fn") [])
      ≠ Except.ok (Stmt.assign "x" (Expr.call (Expr.name "mystery_fn") [])) := by
  constructor
  · rfl
  · intro h
    exact Except.noConfusion
      (show (Except.error RewriteError.lookupFailed : Except RewriteError Stmt)
          = Except.ok (Stmt.assign "x" (Expr.call (Expr.name "mystery_fn") [])) from h)

/-- C3 amended: an assignment whose right-hand side calls an identifier that
resolves to a plain value (the Opaque classification) is left unchanged
without failure, for both a bare name and a dotted path; an identifier that
does not resolve at all makes the rewrite fail with the lookup error. -/
theorem c3_opaque_unchanged_unresolved_fails (env : Env) (t : String)
    (args : List Expr) :
    (∀ id : String,
      (lookupEnv env id [] = some GValue.plainValue →
        visit_Assign env t (Expr.call (Expr.name id) args)
          = Except.ok (Stmt.assign t (Expr.call (Expr.name id) args)))
      ∧ (lookupEnv env id [] = none →
        visit_Assign env t (Expr.call (Expr.name id) args)
          = Except.error RewriteError.lookupFailed))
    ∧ (∀ (b : Expr) (a base : String) (attrs : List String),
        collectAttrs (Expr.attribute b a) [] = some (base, attrs) →
        ((lookupEnv env base attrs = some GValue.plainValue →
          visit_Assign env t (Expr.call (Expr.attribute b a) args)
            = Except.ok (Stmt.assign t (Expr.call (Expr.attribute b a) args)))
        ∧ (lookupEnv env base attrs = none →
          visit_Assign env t (Expr.call (Expr.attribute b a) args)
            = Except.error RewriteError.lookupFailed))) := by
  constructor
  · intro id
    constructor
    · intro h
      simp [visit_Assign, h]
    · intro h
      simp [visit_Assign, h]
  · intro b a base attrs hc
    constructor
    · intro h
      simp [visit_Assign, hc, h]
    · intro h
      simp [visit_Assign, hc, h]

/-- The ambient namespace of the notebook examples: a tensor helper
(Opaque), a distribution class reachable as a bare name and one as a dotted
path (SuspensionEligible), and a decorated model (Delegate). -/
def envW : Env :=
  [(("tf", ["zeros"]), GValue.plainValue),
   (("HalfCauchy", []), GValue.distClass),
   (("tfd", ["Normal"]), GValue.distClass),
   (("Horseshoe", []), GValue.modelHandle)]

/-- Witness for the amended C3: tf.zeros(...) passes through unchanged and
an undefined callee fails. -/
theorem c3_opaque_unchanged_unresolved_fails_witness :
    visit_Assign envW "x" (Expr.call (Expr.attribute (Expr.name "tf") "zeros") [])
      = Except.ok (Stmt.assign "x"
          (Expr.call (Expr.attribute (Expr.name "tf") "zeros") []))
    ∧ visit_Assign envW "x" (Expr.call (Expr.name "undefined_fn") [])
      = Except.error RewriteError.lookupFailed := by
  constructor
  · exact ((c3_opaque_unchanged_unresolved_fails envW "x" []).2
      (Expr.name "tf") "zeros" "tf" ["zeros"] rfl).1 rfl
  · exact ((c3_opaque_unchanged_unresolved_fails envW "x" []).1 "undefined_fn").2 rfl

/-- Helper for C4: a body whose assignments are all in suspension or
delegation form already passes through the transformer unchanged. -/
lemma rewriteBody_all_suspended (env : Env) :
    ∀ body : List Stmt, body.all assignRhsSuspended = true →
      rewriteBody env body = Except.ok body := by
  intro body h
  induction body with
  | nil => rfl
  | cons s rest ih =>
    rw [List.all_cons, Bool.and_eq_true] at h
    obtain ⟨h1, h2⟩ := h
    have hstep : rewriteStmt env s = Except.ok s := by
      cases s with
      | assign t v =>
        cases v <;> simp_all [assignRhsSuspended, isSuspensionForm, rewriteStmt,
          visit_Assign]
      | ret e => rfl
      | exprStmt e => rfl
    simp [rewriteBody, hstep, ih h2]

/-- C4: on a function declaration whose assignments all carry suspension or
delegation forms already, the pass keeps the body statement-for-statement
identical — no assignment is wrapped a second time — while normalizing the
declaration itself (internal name, empty decorator list); applying the pass
to its own output reproduces that output exactly, so rewriting twice equals
rewriting once. -/
theorem c4_rewrite_idempotent (env : Env) (f : FunctionDef)
    (h : f.body.all assignRhsSuspended = true) :
    visit_FunctionDef env f = Except.ok ⟨"_model_generator", f.params, [], f.body⟩
    ∧ visit_FunctionDef env ⟨"_model_generator", f.params, [], f.body⟩
        = Except.ok ⟨"_model_generator", f.params, [], f.body⟩ := by
  have hb := rewriteBody_all_suspended env f.body h
  constructor
  · simp [visit_FunctionDef, hb]
  · simp [visit_FunctionDef, hb]

/-- The already-rewritten linear regression body: yield and yield-from
assignments and a return. -/
def fW : FunctionDef :=
  ⟨"linear_regression", ["x"], ["Model"],
    [Stmt.assign "scale"
       (Expr.yield (Expr.call (Expr.attribute (Expr.name "tfd") "HalfCauchy")
         [Expr.const 0, Expr.const 1])),
     Stmt.assign "coefs"
       (Expr.yieldFrom (Expr.call
         (Expr.attribute (Expr.name "Horseshoe") "model_generator")
         [Expr.const 0])),
     Stmt.ret (some (Expr.name "scale"))]⟩

/-- Witness for C4 on a concrete already-suspended declaration. -/
theorem c4_rewrite_idempotent_witness :
    visit_FunctionDef [] fW = Except.ok ⟨"_model_generator", fW.params, [], fW.body⟩
    ∧ visit_FunctionDef [] ⟨"_model_generator", fW.params, [], fW.body⟩
        = Except.ok ⟨"_model_generator", fW.params, [], fW.body⟩ :=
  c4_rewrite_idempotent [] fW rfl

/-- C5: an assignment whose right-hand side calls a callee resolving to a
distribution class is wrapped in exactly one suspension marker — the yield
of the constructed call — whether the callee is a bare name or a dotted
path; a marker-free right-hand side carries exactly one marker afterwards;
and a non-call right-hand side is left untouched, so it contributes no
suspension point. -/
theorem c5_suspension_marker (env : Env) (t : String) (args : List Expr) :
    (∀ id : String, lookupEnv env id [] = some GValue.distClass →
      visit_Assign env t (Expr.call (Expr.name id) args)
        = Except.ok (Stmt.assign t (Expr.yield (Expr.call (Expr.name id) args)))
      ∧ (markerCount (Expr.call (Expr.name id) args) = 0 →
         markerCount (Expr.yield (Expr.call (Expr.name id) args)) = 1))
    ∧ (∀ (b : Expr) (a base : String) (attrs : List String),
        collectAttrs (Expr.attribute b a) [] = some (base, attrs) →
        lookupEnv env base attrs = some GValue.distClass →
        visit_Assign env t (Expr.call (Expr.attribute b a) args)
          = Except.ok (Stmt.assign t
              (Expr.yield (Expr.call (Expr.attribute b a) args))))
    ∧ (∀ v : Expr, isCallExpr v = false →
        visit_Assign env t v = Except.ok (Stmt.assign t v)) := by
  refine ⟨?_, ?_, ?_⟩
  · intro id h
    refine ⟨by simp [visit_Assign, h], ?_⟩
    intro h0
    simp only [markerCount] at h0 ⊢
    omega
  · intro b a base attrs hc h
    simp [visit_Assign, hc, h]
  · intro v hv
    cases v <;> simp_all [isCallExpr, visit_Assign]

/-- Witness for C5: HalfCauchy(0) gains exactly one yield marker and the
literal right-hand side 10 is untouched. -/
theorem c5_suspension_marker_witness :
    visit_Assign envW "x" (Expr.call (Expr.name "HalfCauchy") [Expr.const 0])
      = Except.ok (Stmt.assign "x"
          (Expr.yield (Expr.call (Expr.name "HalfCauchy") [Expr.const 0])))
    ∧ markerCount (Expr.yield (Expr.call (Expr.name "HalfCauchy") [Expr.const 0])) = 1
    ∧ visit_Assign envW "x" (Expr.const 10)
      = Except.ok (Stmt.assign "x" (Expr.const 10)) := by
  refine ⟨?_, ?_, ?_⟩
  · exact ((c5_suspension_marker envW "x" [Expr.const 0]).1 "HalfCauchy" rfl).1
  · exact ((c5_suspension_marker envW "x" [Expr.const 0]).1 "HalfCauchy" rfl).2
      (by simp [markerCount, markerCountList])
  · exact (c5_suspension_marker envW "x" []).2.2 (Expr.const 10) rfl

/-- C6: an assignment calling an identifier bound to a Model handle is
rewritten to call the handle's model_generator factory attribute instead of
the handle itself, wrapped in the delegating yield-from marker, with the
argument list unchanged. -/
theorem c6_delegate_rewrite (env : Env) (t : String) (id : String)
    (args : List Expr) (h : lookupEnv env id [] = some GValue.modelHandle) :
    visit_Assign env t (Expr.call (Expr.name id) args)
      = Except.ok (Stmt.assign t (Expr.yieldFrom
          (Expr.call (Expr.attribute (Expr.name id) "model_generator") args))) := by
  simp [visit_Assign, h]

/-- Witness for C6: Horseshoe(0) becomes yield from
Horseshoe.model_generator(0). -/
theorem c6_delegate_rewrite_witness :
    visit_Assign envW "coefs" (Expr.call (Expr.name "Horseshoe") [Expr.const 0])
      = Except.ok (Stmt.assign "coefs" (Expr.yieldFrom
          (Expr.call (Expr.attribute (Expr.name "Horseshoe") "model_generator")
            [Expr.const 0]))) :=
  c6_delegate_rewrite envW "coefs" "Horseshoe" [Expr.const 0] rfl

/-! ## Claims about parse and recompile -/

/-- C8: on either entry path — a preparsed tree (materialize) or source text
run through parse_snippet first (parse) — recompile fails with the
MalformedInput error exactly when the resulting tree starts with a
non-function top-level element, and succeeds exactly when the tree starts
with a function declaration. -/
theorem c8_recompile_malformed_iff (inp : RecompileInput) :
    ((recompile inp = Except.error RecompileError.malformedInput)
       ↔ (∃ s rest, (sourceModule inp).body = Item.stmt s :: rest))
    ∧ ((∃ c, recompile inp = Except.ok c)
       ↔ (∃ f rest, (sourceModule inp).body = Item.fdef f :: rest)) := by
  rcases hm : (sourceModule inp).body with _ | ⟨i, rest2⟩
  · constructor
    · constructor
      · intro h
        rw [show recompile inp = recompileCheck (sourceModule inp) from rfl] at h
        simp [recompileCheck, hm] at h
      · rintro ⟨s, rest, hr⟩
        exact List.noConfusion hr
    · constructor
      · rintro ⟨c, hc⟩
        rw [show recompile inp = recompileCheck (sourceModule inp) from rfl] at hc
        simp [recompileCheck, hm] at hc
      · rintro ⟨f, rest, hr⟩
        exact List.noConfusion hr
  · cases i with
    | fdef f =>
      constructor
      · constructor
        · intro h
          rw [show recompile inp = recompileCheck (sourceModule inp) from rfl] at h
          simp [recompileCheck, hm] at h
        · rintro ⟨s, rest, hr⟩
          simp at hr
      · constructor
        · intro _
          exact ⟨f, rest2, rfl⟩
        · intro _
          refine ⟨⟨sourceModule inp⟩, ?_⟩
          rw [show recompile inp = recompileCheck (sourceModule inp) from rfl]
          simp [recompileCheck, hm]
    | stmt s =>
      constructor
      · constructor
        · intro _
          exact ⟨s, rest2, rfl⟩
        · intro _
          rw [show recompile inp = recompileCheck (sourceModule inp) from rfl]
          simp [recompileCheck, hm]
      · constructor
        · rintro ⟨c, hc⟩
          rw [show recompile inp = recompileCheck (sourceModule inp) from rfl] at hc
          simp [recompileCheck, hm] at hc
        · rintro ⟨f, rest, hr⟩
          simp at hr

/-! ## Claims about source extraction -/

/-- A code object compiled from an inline string: not nested, no free
variables, not a lambda, no retrievable source. -/
def cStr : CodeObj := ⟨false, [], "f", "<string>", 0, [], none⟩

/-- C9 counterexample: a callable that is neither a closure nor anonymous
and whose source text cannot be retrieved (it was compiled from the string
"<string>") does not fail with the NotAvailable error — it fails with the
NotImplementedError "Code without source file not supported", which belongs
to the NotSupported family. -/
theorem c9_string_source_counterexample :
    uncompile cStr = Except.error UncompileError.notImplementedNoSourceFile
    ∧ specNotAvailable UncompileError.notImplementedNoSourceFile = false
    ∧ specNotSupported UncompileError.notImplementedNoSourceFile = true
    ∧ cStr.co_nested = false ∧ cStr.co_freevars = []
    ∧ cStr.co_name ≠ "<lambda>" ∧ cStr.sourceLines = none := by
  refine ⟨rfl, rfl, rfl, rfl, rfl, ?_, rfl⟩
  intro h
  exact absurd h (by decide)

/-- C9 amended: uncompile fails with a NotSupported-family error
(NotImplementedError) when the callable is nested or captures enclosing
locals, when it is anonymous, and also when it has no backing source file;
it fails with the NotAvailable error (RuntimeError) only when the source
file is known but the source lines cannot be read; otherwise it returns the
FunctionSource, with no side effects (the embedding is a pure function). -/
theorem c9_extractor_taxonomy (c : CodeObj) :
    ((c.co_nested = true ∨ c.co_freevars ≠ []) →
        uncompile c = Except.error UncompileError.notImplementedNested)
    ∧ (c.co_nested = false → c.co_freevars = [] → c.co_name = "<lambda>" →
        uncompile c = Except.error UncompileError.notImplementedLambda)
    ∧ (c.co_nested = false → c.co_freevars = [] → c.co_name ≠ "<lambda>" →
        c.co_filename = "<string>" →
        uncompile c = Except.error UncompileError.notImplementedNoSourceFile)
    ∧ (c.co_nested = false → c.co_freevars = [] → c.co_name ≠ "<lambda>" →
        c.co_filename ≠ "<string>" → c.sourceLines = none →
        uncompile c = Except.error UncompileError.runtimeSourceNotAvailable)
    ∧ (∀ src fl, c.co_nested = false → c.co_freevars = [] →
        c.co_name ≠ "<lambda>" → c.co_filename ≠ "<string>" →
        c.sourceLines = some (src, fl) →
        uncompile c = Except.ok ⟨src, c.co_filename, "exec", c.co_flags_future,
          fl, findPrivPfx c.co_names⟩) := by
  refine ⟨?_, ?_, ?_, ?_, ?_⟩
  · intro h
    simp [uncompile, h]
  · intro h1 h2 h3
    simp [uncompile, h1, h2, h3]
  · intro h1 h2 h3 h4
    simp [uncompile, h1, h2, h3, h4]
  · intro h1 h2 h3 h4 h5
    simp [uncompile, h1, h2, h3, h4, h5]
  · intro src fl h1 h2 h3 h4 h5
    simp [uncompile, h1, h2, h3, h4, h5]

/-- An ordinary module-level function with retrievable source. -/
def cGood : CodeObj :=
  ⟨false, [], "linear_regression", "nb.py", 0, [],
   some ("def linear_regression(x): pass", 3)⟩

/-- Witness for the amended C9: the ordinary callable yields its
FunctionSource. -/
theorem c9_extractor_taxonomy_witness :
    uncompile cGood = Except.ok ⟨"def linear_regression(x): pass",
      cGood.co_filename, "exec", cGood.co_flags_future, 3,
      findPrivPfx cGood.co_names⟩ :=
  (c9_extractor_taxonomy cGood).2.2.2.2 "def linear_regression(x): pass" 3
    rfl rfl (by decide) (by decide) rfl
